import Mathlib

/-!
Shallow embedding of the SmartGeo deterministic calculation engine
(src/services/geminiService.ts, calculation-engine part; data model from
the repository's type declarations) over exact rationals.  JS `number`
arithmetic is idealised as `ℚ`; the transcendental library functions
(`Math.exp`, `Math.tan`, `Math.sin`, `Math.cos`, `Math.atan`, `Math.sqrt`,
`Math.log10`, `Math.PI`) are abstracted as the fields of an `RMath`
structure, so every definition stays computable and theorems state the
properties of those functions they actually need as hypotheses.
-/

namespace SmartGeo

/-- JS `Math.round`: round half up, `Math.round x = ⌊x + 1/2⌋`. -/
def jsRound (x : ℚ) : ℤ := ⌊x + 1/2⌋

/-- `Math.round (x * 100) / 100` — two-decimal rounding used for all reported numbers. -/
def round2 (x : ℚ) : ℚ := (jsRound (x * 100) : ℚ) / 100

/-- `Math.round (x * 10) / 10` — one-decimal rounding used for graph points. -/
def round1 (x : ℚ) : ℚ := (jsRound (x * 10) : ℚ) / 10

/-- JS `a || dflt` on an optional number: `undefined`/`null` and `0` are falsy. -/
def jsOr (v : Option ℚ) (dflt : ℚ) : ℚ :=
  match v with
  | none => dflt
  | some x => if x = 0 then dflt else x

/-- JS `a || dflt` on a plain number: `0` is falsy. -/
def jsOrQ (x dflt : ℚ) : ℚ := if x = 0 then dflt else x

/-- JS truthiness of an optional number. -/
def jsTruthy (v : Option ℚ) : Bool :=
  match v with
  | none => false
  | some x => x != 0

/-- The source's per-field resolution idiom
`lab.useManual && lab.field != null ? lab.field : estimate(...)`. -/
def pick (useManual : Bool) (v : Option ℚ) (est : ℚ) : ℚ :=
  if useManual then v.getD est else est

/-- Abstraction of the JS `Math` transcendental primitives used by the engine. -/
structure RMath where
  exp : ℚ → ℚ
  tan : ℚ → ℚ
  sin : ℚ → ℚ
  cos : ℚ → ℚ
  atan : ℚ → ℚ
  sqrt : ℚ → ℚ
  log10 : ℚ → ℚ
  pi : ℚ

-- ============ Data model (src types declaration file) ============

inductive SoilType where
  | sand | clay | silt | gravel | rock
deriving DecidableEq, Repr

structure ManualLabData where
  useManual : Bool
  unitWeight : Option ℚ := none
  cohesion : Option ℚ := none
  frictionAngle : Option ℚ := none
  elasticModulus : Option ℚ := none
  poissonsRatio : Option ℚ := none
  cc : Option ℚ := none
  cr : Option ℚ := none
  cv : Option ℚ := none
  cAlpha : Option ℚ := none
deriving DecidableEq, Repr

structure SoilLayer where
  depthFrom : ℚ
  depthTo : ℚ
  type : SoilType
  sptN : ℚ
  labData : ManualLabData
deriving DecidableEq, Repr

inductive FoundationType where
  | isolated | raft | strip | circular
deriving DecidableEq, Repr

structure FoundationData where
  width : ℚ
  length : ℚ
  diameter : Option ℚ := none
  depth : ℚ
  load : ℚ
  moment : Option ℚ := none
  type : FoundationType
  shapeFactor : Option ℚ := none
  groundwaterDepth : ℚ
  concreteGrade : ℚ
  steelGrade : ℚ
  slopeAngle : Option ℚ := none
  targetFos : ℚ
deriving DecidableEq, Repr

structure CalibrationRecord where
  soilType : SoilType
  sptN : ℚ
  actualPhi : Option ℚ := none
  actualC : Option ℚ := none
  actualE : Option ℚ := none
  description : String := ""
deriving DecidableEq, Repr

inductive Language where
  | ar | en
deriving DecidableEq, Repr

-- ============ Estimation helpers ============

/-- `estimatePhi` — Peck, Hanson & Thornburn correlations. -/
def estimatePhi (sptN : ℚ) (type : SoilType) : ℚ :=
  match type with
  | .sand | .gravel => min 45 (25 + 0.3 * sptN + 0.00054 * sptN * sptN)
  | .silt => min 35 (20 + 0.25 * sptN)
  | .clay => 0
  | .rock => 40

/-- `estimateCohesion`. -/
def estimateCohesion (sptN : ℚ) (type : SoilType) : ℚ :=
  match type with
  | .clay => sptN * 6.25
  | .silt => sptN * 3
  | .sand | .gravel => 0
  | .rock => 200

/-- `estimateGamma`. -/
def estimateGamma (sptN : ℚ) (type : SoilType) : ℚ :=
  match type with
  | .sand => if sptN < 10 then 16 else if sptN < 30 then 18 else 20
  | .gravel => 20
  | .clay => if sptN < 4 then 16 else if sptN < 8 then 17 else 19
  | .silt => 17
  | .rock => 25

/-- `estimateE` (elastic modulus in MPa). -/
def estimateE (sptN : ℚ) (type : SoilType) : ℚ :=
  match type with
  | .sand => 2.5 * sptN
  | .gravel => 3 * sptN
  | .clay => 0.8 * sptN + 5
  | .silt => 1.5 * sptN + 3
  | .rock => 500

/-- `estimateCc` — approximate compression index from SPT. -/
def estimateCc (sptN : ℚ) : ℚ :=
  if sptN < 4 then 0.4 else if sptN < 8 then 0.25 else if sptN < 15 then 0.15 else 0.1

/-- Stand-in for the JS `undefined` produced by indexing an empty layer array;
in the source this value crashes at its use site, and `runFullAnalysis`
returns `none` for an empty layer list accordingly, so this record never
reaches a `some` result. -/
def jsUndefinedLayer : SoilLayer :=
  { depthFrom := 0, depthTo := 0, type := .sand, sptN := 0, labData := { useManual := false } }

/-- `layers.find(l => depth >= l.depthFrom && depth < l.depthTo)`. -/
def findLayerAt (layers : List SoilLayer) (depth : ℚ) : Option SoilLayer :=
  layers.find? (fun l => decide (depth ≥ l.depthFrom) && decide (depth < l.depthTo))

/-- `getLayerAtDepth`: find the containing layer, else fall back to the last layer. -/
def getLayerAtDepth (layers : List SoilLayer) (depth : ℚ) : SoilLayer :=
  (findLayerAt layers depth).getD (layers.getLast?.getD jsUndefinedLayer)

/-- The layer lookup used by `calculateBearingCapacity` and `calculateFEMAnalysis`:
find the containing layer, else fall back to the FIRST layer (`... || layers[0]`). -/
def foundationLayerOf (layers : List SoilLayer) (foundation : FoundationData) : SoilLayer :=
  (findLayerAt layers foundation.depth).getD (layers.head?.getD jsUndefinedLayer)

/-- `getElasticModulus`. -/
def getElasticModulus (layer : SoilLayer) : ℚ :=
  pick layer.labData.useManual layer.labData.elasticModulus (estimateE layer.sptN layer.type)

/-- Accumulator loop of `getWeightedGamma` (with the source's `break` on
`layer.depthFrom >= depth` and `continue` on non-positive thickness). -/
def getWeightedGammaAux (depth : ℚ) : List SoilLayer → ℚ × ℚ → ℚ × ℚ
  | [], acc => acc
  | l :: rest, (tw, tt) =>
    if l.depthFrom ≥ depth then (tw, tt)
    else
      let effectiveBottom := min l.depthTo depth
      let thickness := effectiveBottom - l.depthFrom
      if thickness ≤ 0 then getWeightedGammaAux depth rest (tw, tt)
      else
        let gamma := jsOr l.labData.unitWeight (estimateGamma l.sptN l.type)
        getWeightedGammaAux depth rest (tw + gamma * thickness, tt + thickness)

/-- `getWeightedGamma`: depth-weighted average unit weight above `depth` (default 18). -/
def getWeightedGamma (layers : List SoilLayer) (depth : ℚ) : ℚ :=
  let acc := getWeightedGammaAux depth layers (0, 0)
  if acc.2 > 0 then acc.1 / acc.2 else 18

-- ============ 1. Bearing capacity (Vesic) ============

structure BCFactors where
  Nc : ℚ
  Nq : ℚ
  Ngamma : ℚ
deriving DecidableEq, Repr

/-- `bearingCapacityFactors`. -/
def bearingCapacityFactors (M : RMath) (phiDeg : ℚ) : BCFactors :=
  let phi := phiDeg * M.pi / 180
  if phiDeg = 0 then
    { Nc := 5.14, Nq := 1.0, Ngamma := 0 }
  else
    let Nq := M.exp (M.pi * M.tan phi) * (M.tan (M.pi / 4 + phi / 2)) ^ 2
    let Nc := (Nq - 1) / M.tan phi
    let Ngamma := 2 * (Nq + 1) * M.tan phi
    { Nc := Nc, Nq := Nq, Ngamma := Ngamma }

structure ShapeFactors where
  sc : ℚ
  sq : ℚ
  sgamma : ℚ
deriving DecidableEq, Repr

/-- `shapeFactors` (Vesic 1973). -/
def shapeFactors (M : RMath) (B L Nq Nc : ℚ) (type : FoundationType) : ShapeFactors :=
  if type = .circular then
    { sc := 1 + Nq / Nc, sq := 1 + M.tan (30 * M.pi / 180), sgamma := 0.6 }
  else if type = .strip then
    { sc := 1.0, sq := 1.0, sgamma := 1.0 }
  else
    let ratio := B / L
    { sc := 1 + ratio * (Nq / Nc)
      sq := 1 + ratio * M.tan (30 * M.pi / 180)
      sgamma := 1 - 0.4 * ratio }

structure DepthFactors where
  dc : ℚ
  dq : ℚ
  dgamma : ℚ
deriving DecidableEq, Repr

/-- `depthFactors` (Hansen 1970). -/
def depthFactors (M : RMath) (Df B : ℚ) : DepthFactors :=
  let ratio := Df / B
  if ratio ≤ 1 then
    let dq := 1 + 2 * M.tan (30 * M.pi / 180) * (1 - M.sin (30 * M.pi / 180)) ^ 2 * ratio
    { dc := 1 + 0.4 * ratio, dq := dq, dgamma := 1.0 }
  else
    let arctanRatio := M.atan ratio
    let dq := 1 + 2 * M.tan (30 * M.pi / 180) * (1 - M.sin (30 * M.pi / 180)) ^ 2 * arctanRatio
    { dc := 1 + 0.4 * arctanRatio, dq := dq, dgamma := 1.0 }

structure GwWeights where
  gammaAbove : ℚ
  gammaBelow : ℚ
deriving DecidableEq, Repr

/-- `effectiveUnitWeight` — groundwater correction for unit weight. -/
def effectiveUnitWeight (gamma gwDepth Df B : ℚ) : GwWeights :=
  let gammaW : ℚ := 9.81
  let gammaSub := gamma - gammaW
  if gwDepth ≥ Df + B then
    { gammaAbove := gamma, gammaBelow := gamma }
  else if gwDepth ≤ Df then
    { gammaAbove := gamma, gammaBelow := gammaSub }
  else
    let factor := (gwDepth - Df) / B
    { gammaAbove := gamma, gammaBelow := gammaSub + factor * (gamma - gammaSub) }

/-- Foundation width `B` as each module computes it:
`foundation.type === 'circular' ? (foundation.diameter || 2) : foundation.width`. -/
def resolvedB (f : FoundationData) : ℚ :=
  if f.type = .circular then jsOr f.diameter 2 else f.width

/-- Length as computed by the bearing-capacity and settlement modules:
`circular ? B : (strip ? B * 10 : foundation.length)`. -/
def resolvedLFull (f : FoundationData) : ℚ :=
  if f.type = .circular then resolvedB f
  else if f.type = .strip then resolvedB f * 10
  else f.length

/-- Length as computed by the structural-design and FEM modules:
`circular ? B : foundation.length`. -/
def resolvedLPlain (f : FoundationData) : ℚ :=
  if f.type = .circular then resolvedB f else f.length

/-- Plan area: `circular ? π (B/2)² : B * L`. -/
def planArea (M : RMath) (f : FoundationData) (B L : ℚ) : ℚ :=
  if f.type = .circular then M.pi * (B / 2) ^ 2 else B * L

/-- Friction angle resolved at the foundation layer (lines 247–250 of the engine). -/
def resolvedPhi (layers : List SoilLayer) (f : FoundationData) : ℚ :=
  let layer := foundationLayerOf layers f
  pick layer.labData.useManual layer.labData.frictionAngle (estimatePhi layer.sptN layer.type)

/-- Cohesion resolved at the foundation layer. -/
def resolvedC (layers : List SoilLayer) (f : FoundationData) : ℚ :=
  let layer := foundationLayerOf layers f
  pick layer.labData.useManual layer.labData.cohesion (estimateCohesion layer.sptN layer.type)

/-- Unit weight resolved at the foundation layer. -/
def resolvedGammaBC (layers : List SoilLayer) (f : FoundationData) : ℚ :=
  let layer := foundationLayerOf layers f
  pick layer.labData.useManual layer.labData.unitWeight (estimateGamma layer.sptN layer.type)

/-- The unrounded Vesic ultimate bearing capacity computed by
`calculateBearingCapacity` (its `q_ult` local). -/
def qUltRaw (M : RMath) (layers : List SoilLayer) (f : FoundationData) : ℚ :=
  let phi := resolvedPhi layers f
  let c := resolvedC layers f
  let gamma := resolvedGammaBC layers f
  let B := resolvedB f
  let L := resolvedLFull f
  let Df := f.depth
  let fct := bearingCapacityFactors M phi
  let sf := shapeFactors M B L fct.Nq fct.Nc f.type
  let df := depthFactors M Df B
  let gw := effectiveUnitWeight gamma f.groundwaterDepth Df B
  let q := gw.gammaAbove * Df
  c * fct.Nc * sf.sc * df.dc + q * fct.Nq * sf.sq * df.dq
    + 0.5 * gw.gammaBelow * B * fct.Ngamma * sf.sgamma * df.dgamma

structure BearingCapacityResult where
  q_ult : ℚ
  q_allow : ℚ
  factors : BCFactors
  factorOfSafety : ℚ
deriving DecidableEq, Repr

/-- `calculateBearingCapacity`. -/
def calculateBearingCapacity (M : RMath) (layers : List SoilLayer)
    (f : FoundationData) : BearingCapacityResult :=
  let targetFos := jsOrQ f.targetFos 3.0
  let q_ult := qUltRaw M layers f
  let q_allow := q_ult / targetFos
  let fct := bearingCapacityFactors M (resolvedPhi layers f)
  let B := resolvedB f
  let L := resolvedLFull f
  let area := planArea M f B L
  let appliedPressure := f.load / area
  let actualFos := q_ult / appliedPressure
  { q_ult := round2 q_ult
    q_allow := round2 q_allow
    factors := { Nc := round2 fct.Nc, Nq := round2 fct.Nq, Ngamma := round2 fct.Ngamma }
    factorOfSafety := round2 actualFos }

-- ============ 2. Settlement ============

/-- One sub-layer term of the Schmertmann integration in
`calculateElasticSettlement` (body of its `for` loop, including the
`E > 0` guard; a non-qualifying sub-layer contributes `0`). -/
def elasticTerm (layers : List SoilLayer) (foundation : FoundationData)
    (B Df : ℚ) (i : ℕ) : ℚ :=
  let L := if foundation.type = .strip then B * 10 else foundation.length
  let isSquare := L / B < 2
  let influenceDepth := if isSquare then 2 * B else 4 * B
  let dz := influenceDepth / 10
  let zMid := ((i : ℚ) + 0.5) * dz
  let zRatio := zMid / influenceDepth
  let Iz0 :=
    if isSquare then
      let peakRatio := 0.5 * B / influenceDepth
      if zRatio ≤ peakRatio then 0.1 + (0.5 - 0.1) * (zRatio / peakRatio)
      else 0.5 * (1 - (zRatio - peakRatio) / (1 - peakRatio))
    else
      let peakRatio := B / influenceDepth
      if zRatio ≤ peakRatio then 0.2 + (0.5 - 0.2) * (zRatio / peakRatio)
      else 0.5 * (1 - (zRatio - peakRatio) / (1 - peakRatio))
  let Iz := max 0 Iz0
  let actualDepth := Df + zMid
  let layer := getLayerAtDepth layers actualDepth
  let E := getElasticModulus layer * 1000
  if E > 0 then (Iz / E) * dz else 0

/-- `calculateElasticSettlement` — Schmertmann (1978). -/
def calculateElasticSettlement (layers : List SoilLayer) (foundation : FoundationData)
    (B Df qApplied : ℚ) : ℚ :=
  let gamma := getWeightedGamma layers Df
  let q0 := gamma * Df
  let deltaQ := qApplied - q0
  if deltaQ ≤ 0 then 0
  else
    let C1 := 1 - 0.5 * (q0 / deltaQ)
    let C2 : ℚ := 1.0
    let settlement := ((List.range 10).map (elasticTerm layers foundation B Df)).sum
    max 0 C1 * C2 * deltaQ * settlement * 1000

/-- Per-layer contribution of `calculatePrimaryConsolidation`
(non-qualifying layers contribute `0`). -/
def primaryTerm (M : RMath) (foundation : FoundationData)
    (B Df qApplied : ℚ) (layer : SoilLayer) : ℚ :=
  if layer.type ≠ SoilType.clay ∧ layer.type ≠ SoilType.silt then 0
  else if layer.depthTo ≤ Df then 0
  else
    let lab := layer.labData
    let Cc := jsOr lab.cc (estimateCc layer.sptN)
    let gamma := jsOr lab.unitWeight (estimateGamma layer.sptN layer.type)
    let H := layer.depthTo - max layer.depthFrom Df
    let zMid := (max layer.depthFrom Df + layer.depthTo) / 2
    let sigma0 := gamma * zMid
    let z := zMid - Df
    let Lp := jsOrQ foundation.length B
    let deltaStress := qApplied * (B * Lp) / ((B + z) * (Lp + z))
    let e0 := 0.5 + Cc * 2
    if sigma0 > 0 then
      let Sc := (Cc * H) / (1 + e0) * M.log10 ((sigma0 + deltaStress) / sigma0)
      max 0 Sc * 1000
    else 0

/-- `calculatePrimaryConsolidation` (Terzaghi 1D) for clay/silt layers. -/
def calculatePrimaryConsolidation (M : RMath) (layers : List SoilLayer)
    (foundation : FoundationData) (B Df qApplied : ℚ) : ℚ :=
  (layers.map (primaryTerm M foundation B Df qApplied)).sum

/-- Per-layer contribution of `calculateSecondaryConsolidation`. -/
def secondaryTerm (M : RMath) (Df : ℚ) (layer : SoilLayer) : ℚ :=
  if layer.type ≠ SoilType.clay ∧ layer.type ≠ SoilType.silt then 0
  else if layer.depthTo ≤ Df then 0
  else
    let lab := layer.labData
    let cAlpha := jsOr lab.cAlpha 0.005
    let H := layer.depthTo - max layer.depthFrom Df
    let cv := jsOr lab.cv 0.5
    let Hdr := H / 2
    let tp := 0.848 * Hdr * Hdr / cv
    let tDesign := max (tp * 2) 30
    if tp > 0 then
      let Ss := cAlpha * H * M.log10 (tDesign / tp)
      max 0 Ss * 1000
    else 0

/-- `calculateSecondaryConsolidation` (Cα method). -/
def calculateSecondaryConsolidation (M : RMath) (layers : List SoilLayer)
    (foundation : FoundationData) : ℚ :=
  (layers.map (secondaryTerm M foundation.depth)).sum

/-- Per-layer time for 90% primary consolidation in
`calculateConsolidationTime` (non-qualifying layers report `0`). -/
def t90Term (Df : ℚ) (layer : SoilLayer) : ℚ :=
  if layer.type ≠ SoilType.clay ∧ layer.type ≠ SoilType.silt then 0
  else if layer.depthTo ≤ Df then 0
  else
    let cv := jsOr layer.labData.cv 0.5
    let H := layer.depthTo - max layer.depthFrom Df
    let Hdr := H / 2
    let Tv90 : ℚ := 0.848
    Tv90 * Hdr * Hdr / cv

/-- Positive-integer decimal formatting `a.b` used for `maxTime.toFixed(1)`
(the source only reaches it with `maxTime ≥ 1`). -/
def toFixed1 (x : ℚ) : String :=
  let n := jsRound (x * 10)
  toString (n / 10) ++ "." ++ toString (n % 10)

/-- `calculateConsolidationTime`. -/
def calculateConsolidationTime (layers : List SoilLayer)
    (foundation : FoundationData) : String :=
  let maxTime := (layers.map (t90Term foundation.depth)).foldl max 0
  if maxTime ≤ 0 then "< 1 Month"
  else if maxTime < 1 / 12 then toString (jsRound (maxTime * 365)) ++ " Days"
  else if maxTime < 1 then toString (jsRound (maxTime * 12)) ++ " Months"
  else toFixed1 maxTime ++ " Years"

inductive SettlementStatus where
  | safe | warning | failure
deriving DecidableEq, Repr

structure SettlementResult where
  total : ℚ
  elastic : ℚ
  primary : ℚ
  secondary : ℚ
  timeToMaxSettlement : String
  status : SettlementStatus
deriving DecidableEq, Repr

/-- The unrounded total settlement (elastic + primary + secondary) from which
`calculateSettlement` derives the status. -/
def settlementTotalRaw (M : RMath) (layers : List SoilLayer)
    (foundation : FoundationData) : ℚ :=
  let B := resolvedB foundation
  let L := resolvedLFull foundation
  let Df := foundation.depth
  let area := planArea M foundation B L
  let appliedPressure := foundation.load / area
  calculateElasticSettlement layers foundation B Df appliedPressure
    + calculatePrimaryConsolidation M layers foundation B Df appliedPressure
    + calculateSecondaryConsolidation M layers foundation

/-- `calculateSettlement`. -/
def calculateSettlement (M : RMath) (layers : List SoilLayer)
    (foundation : FoundationData) : SettlementResult :=
  let B := resolvedB foundation
  let L := resolvedLFull foundation
  let Df := foundation.depth
  let area := planArea M foundation B L
  let appliedPressure := foundation.load / area
  let elastic := calculateElasticSettlement layers foundation B Df appliedPressure
  let primary := calculatePrimaryConsolidation M layers foundation B Df appliedPressure
  let secondary := calculateSecondaryConsolidation M layers foundation
  let timeStr := calculateConsolidationTime layers foundation
  let total := elastic + primary + secondary
  let status : SettlementStatus :=
    if total < 25 then .safe else if total < 50 then .warning else .failure
  { total := round2 total
    elastic := round2 elastic
    primary := round2 primary
    secondary := round2 secondary
    timeToMaxSettlement := timeStr
    status := status }

-- ============ 3. Foundation design (ACI 318) ============

/-- Column size assumed by `calculateFoundationDesign`. -/
def columnSizeOf (f : FoundationData) (B L : ℚ) : ℚ :=
  if f.type = .isolated then 0.4 else min B L * 0.3

/-- The punching-shear demand/capacity test at effective depth `d`
(`Vu <= phiVc` in the source loop). -/
def punchCond (M : RMath) (fc columnSize load qApplied d : ℚ) : Prop :=
  load - qApplied * (columnSize + d) ^ 2
    ≤ 0.75 * 0.33 * M.sqrt fc * (4 * (columnSize + d)) * d * 1000

instance (M : RMath) (fc columnSize load qApplied d : ℚ) :
    Decidable (punchCond M fc columnSize load qApplied d) := by
  unfold punchCond; infer_instance

/-- The bounded iteration of `calculateFoundationDesign`: starting from `d`,
step `+0.05` until `punchCond` holds or the fuel runs out (20 iterations,
leaving `d` at the last increment without a final test — exactly the JS
`for` loop with `break`). -/
def punchIter (M : RMath) (fc columnSize load qApplied : ℚ) : ℕ → ℚ → ℚ
  | 0, d => d
  | n + 1, d =>
    if punchCond M fc columnSize load qApplied d then d
    else punchIter M fc columnSize load qApplied n (d + 0.05)

/-- The converged effective depth `d` of `calculateFoundationDesign`. -/
def effectiveDepth (M : RMath) (f : FoundationData) : ℚ :=
  let B := resolvedB f
  let L := resolvedLPlain f
  let area := planArea M f B L
  let qApplied := f.load / area
  let columnSize := columnSizeOf f B L
  punchIter M f.concreteGrade columnSize f.load qApplied 20 0.3

inductive PunchingCheck where
  | safe | notSafe
deriving DecidableEq, Repr

/-- `generateBarSuggestion` search over the fixed bar table. -/
def barLoop (asRequired : ℚ) : List (ℕ × ℚ) → Option String
  | [] => none
  | (dia, area) :: rest =>
    let spacing := ⌊area / asRequired * 1000⌋
    if 100 ≤ spacing ∧ spacing ≤ 300 then
      let roundedSpacing := spacing / 25 * 25
      some ("Φ" ++ toString dia ++ " @ " ++ toString roundedSpacing ++ "mm c/c")
    else barLoop asRequired rest

/-- `generateBarSuggestion`. -/
def generateBarSuggestion (asRequired : ℚ) : String :=
  let bars : List (ℕ × ℚ) := [(12, 113), (16, 201), (20, 314), (25, 491)]
  match barLoop asRequired bars with
  | some s => s
  | none =>
    let spacing := ⌊(314 : ℚ) / asRequired * 1000⌋
    let roundedSpacing := max 100 (min 300 (spacing / 25 * 25))
    "Φ20 @ " ++ toString roundedSpacing ++ "mm c/c"

structure FoundationDesignResult where
  minThickness : ℚ
  reinforcementArea : ℚ
  barSuggestion : String
  punchingShearCheck : PunchingCheck
  notes : String
deriving DecidableEq, Repr

/-- `calculateFoundationDesign`.  Note the `qAllow` argument is accepted but
never read, exactly as in the source. -/
def calculateFoundationDesign (M : RMath) (f : FoundationData)
    (_qAllow : ℚ) : FoundationDesignResult :=
  let B := resolvedB f
  let L := resolvedLPlain f
  let fc := f.concreteGrade
  let fy := f.steelGrade
  let area := planArea M f B L
  let qApplied := f.load / area
  let columnSize := columnSizeOf f B L
  let d := effectiveDepth M f
  let minThickness := round2 (d + 0.1)
  let punchingCheck : PunchingCheck :=
    if punchCond M fc columnSize f.load qApplied d then .safe else .notSafe
  let cantilever := (B - columnSize) / 2
  let Mu := qApplied * cantilever * cantilever / 2
  let As := Mu * 1000000 / (0.9 * fy * 0.9 * d * 1000)
  let hMm := minThickness * 1000
  let AsMin := 0.0018 * 1000 * hMm
  let finalAs := max As AsMin
  { minThickness := minThickness
    reinforcementArea := (jsRound finalAs : ℚ)
    barSuggestion := generateBarSuggestion finalAs
    punchingShearCheck := punchingCheck
    notes := "" }

-- ============ 4. Slope stability (infinite slope) ============

inductive SlopeStatus where
  | stable | unstable'
deriving DecidableEq, Repr

structure SlopeStabilityResult where
  factorOfSafety : ℚ
  status : SlopeStatus
  method : String
  notes : String
deriving DecidableEq, Repr

/-- `calculateSlopeStability` — returns `none` when slope angle is zero/unset. -/
def calculateSlopeStability (M : RMath) (layers : List SoilLayer)
    (f : FoundationData) : Option SlopeStabilityResult :=
  let slopeAngle := jsOr f.slopeAngle 0
  if slopeAngle ≤ 0 then none
  else
    let beta := slopeAngle * M.pi / 180
    let layer := (layers.head?).getD jsUndefinedLayer
    let lab := layer.labData
    let phi := pick lab.useManual lab.frictionAngle (estimatePhi layer.sptN layer.type)
    let c := pick lab.useManual lab.cohesion (estimateCohesion layer.sptN layer.type)
    let gamma := pick lab.useManual lab.unitWeight (estimateGamma layer.sptN layer.type)
    let phiRad := phi * M.pi / 180
    let z := jsOrQ f.depth 2
    let numerator := c + gamma * z * (M.cos beta) ^ 2 * M.tan phiRad
    let denominator := gamma * z * M.sin beta * M.cos beta
    let fos := if denominator > 0 then numerator / denominator else 99
    some
      { factorOfSafety := round2 fos
        status := if fos ≥ 1.5 then .stable else .unstable'
        method := "Infinite Slope Method"
        notes :=
          if fos ≥ 1.5 then "The slope is stable with an adequate factor of safety."
          else "The slope is potentially unstable. Consider stabilization measures." }

-- ============ 5. FEM stress mesh (Boussinesq / 2:1 spread) ============

structure StressNode where
  x : ℚ
  z : ℚ
  stress : ℚ
deriving DecidableEq, Repr

/-- `boussinesqRectangular` — 2:1 spread with Gaussian-like lateral decay. -/
def boussinesqRectangular (M : RMath) (q B L xOffset z : ℚ) : ℚ :=
  if z ≤ 0 then q
  else
    let effectiveB := B + z
    let effectiveL := L + z
    let centerStress := q * (B * L) / (effectiveB * effectiveL)
    let halfB := B / 2
    let lateralDecay := M.exp (-(xOffset / (halfB + z * 0.5)) ^ 2)
    centerStress * lateralDecay

/-- One node of the stress mesh of `calculateFEMAnalysis`
(row `iz` of 8, column `ix` of 12). -/
def stressMeshNode (M : RMath) (qApplied B L : ℚ) (iz ix : ℕ) : StressNode :=
  let maxDepth := 3 * B
  let halfWidth := B * 1.5
  let x := -halfWidth + ((ix : ℚ) / (12 - 1)) * 2 * halfWidth
  let z := 0.1 + ((iz : ℚ) / (8 - 1)) * maxDepth
  let stress := boussinesqRectangular M qApplied B L x z
  { x := round2 x, z := round2 z, stress := round2 (max 0 stress) }

structure FEMResult where
  maxDisplacement : ℚ
  maxVonMisesStress : ℚ
  plasticPoints : String
  meshNodes : ℕ
  stressMesh : List StressNode
deriving DecidableEq, Repr

/-- `calculateFEMAnalysis`. -/
def calculateFEMAnalysis (M : RMath) (layers : List SoilLayer)
    (f : FoundationData) : FEMResult :=
  let B := resolvedB f
  let L := resolvedLPlain f
  let area := planArea M f B L
  let qApplied := f.load / area
  let stressMesh :=
    (List.range 8).flatMap fun iz =>
      (List.range 12).map fun ix => stressMeshNode M qApplied B L iz ix
  let foundationLayer := foundationLayerOf layers f
  let E := getElasticModulus foundationLayer * 1000
  let nu := jsOr foundationLayer.labData.poissonsRatio 0.3
  let Is : ℚ := 1.0
  let maxDisp := qApplied * B * (1 - nu * nu) * Is / E * 1000
  let gamma := jsOr foundationLayer.labData.unitWeight 18
  let phi := jsOr foundationLayer.labData.frictionAngle 30
  let c := jsOr foundationLayer.labData.cohesion 0
  let shearStrength := c + gamma * f.depth * M.tan (phi * M.pi / 180)
  let plasticRatio := qApplied / shearStrength
  let plasticDesc :=
    if plasticRatio < 0.5 then
      "Minimal plastic deformation — soil well within elastic range."
    else if plasticRatio < 0.8 then
      "Some localized plastic zones near footing edges."
    else
      "Significant plastic zones detected — approaching bearing failure."
  { maxDisplacement := round2 maxDisp
    maxVonMisesStress := round2 qApplied
    plasticPoints := plasticDesc
    meshNodes := stressMesh.length
    stressMesh := stressMesh }

-- ============ 6. Graph data generation ============

structure SimulationPoint where
  x : ℚ
  y : ℚ
deriving DecidableEq, Repr

/-- Load–settlement point `i` of 0..15 in `generateGraphs`. -/
def loadSettlementPoint (qUlt totalSettlement : ℚ) (i : ℕ) : SimulationPoint :=
  let maxLoad := qUlt * 1.5
  let loadFraction := (i : ℚ) / 15
  let load := loadFraction * maxLoad
  let linearSettlement := totalSettlement * loadFraction
  let nonlinearFactor := 1 + (loadFraction * maxLoad / qUlt) ^ 2
  let settlement := linearSettlement * nonlinearFactor
  { x := round1 load, y := round2 settlement }

/-- Shear-strength point at integer depth `depth` in `generateGraphs`. -/
def shearStrengthPoint (M : RMath) (layers : List SoilLayer) (depth : ℚ) : SimulationPoint :=
  let layer := getLayerAtDepth layers depth
  let gamma := jsOr layer.labData.unitWeight (estimateGamma layer.sptN layer.type)
  let phi := layer.labData.frictionAngle.getD (estimatePhi layer.sptN layer.type)
  let c := layer.labData.cohesion.getD (estimateCohesion layer.sptN layer.type)
  let sigma := gamma * depth
  let tau := c + sigma * M.tan (phi * M.pi / 180)
  { x := round1 depth, y := round1 tau }

/-- Degree-of-consolidation contribution of one clay/silt layer at time `t`
(time–settlement curve of `generateGraphs`). -/
def consolidationU (M : RMath) (t : ℚ) (layer : SoilLayer) : ℚ :=
  let cv := jsOr layer.labData.cv 0.5
  let H := layer.depthTo - layer.depthFrom
  let Hdr := H / 2
  let Tv := cv * t / (Hdr * Hdr)
  let U :=
    if Tv ≤ 0.2827 then M.sqrt (4 * Tv / M.pi)
    else 1 - 8 / (M.pi * M.pi) * M.exp (-(M.pi * M.pi * Tv) / 4)
  min 1 (max 0 U)

structure Graphs where
  loadSettlement : List SimulationPoint
  shearStrength : List SimulationPoint
  timeSettlement : List SimulationPoint
deriving DecidableEq, Repr

/-- `generateGraphs`. -/
def generateGraphs (M : RMath) (layers : List SoilLayer) (_foundation : FoundationData)
    (qUlt totalSettlement : ℚ) : Graphs :=
  let loadSettlement :=
    (List.range 16).map (loadSettlementPoint qUlt totalSettlement)
  let maxDepth := ((layers.map (·.depthTo)).max?).getD (-1)
  let depthSteps : ℕ := if maxDepth < 0 then 0 else (⌊maxDepth⌋ + 1).toNat
  let shearStrength :=
    (List.range depthSteps).map fun i => shearStrengthPoint M layers (i : ℚ)
  let clayish := layers.filter fun l => l.type = SoilType.clay || l.type = SoilType.silt
  let maxTimeYears :=
    clayish.foldl
      (fun acc l =>
        let cv := jsOr l.labData.cv 0.5
        let H := l.depthTo - l.depthFrom
        let Hdr := H / 2
        let t90 := 0.848 * Hdr * Hdr / cv
        max acc (t90 * 1.5))
      1
  let timeSettlement :=
    (List.range 21).map fun i =>
      let t := ((i : ℚ) / 20) * maxTimeYears
      let totalS := (clayish.map (consolidationU M t)).sum
      let avgU := if clayish.length > 0 then totalS / (clayish.length : ℚ) else 1
      { x := round2 t, y := round2 (totalSettlement * avgU) }
  { loadSettlement := loadSettlement
    shearStrength := shearStrength
    timeSettlement := timeSettlement }

-- ============ 7. Layer analysis ============

/-- The string value of the `SoilType` enum members. -/
def SoilType.str : SoilType → String
  | .sand => "Sand"
  | .clay => "Clay"
  | .silt => "Silt"
  | .gravel => "Gravel"
  | .rock => "Rock"

/-- `getDensityDescription`. -/
def getDensityDescription (sptN : ℚ) (type : SoilType) : String :=
  if type = SoilType.clay ∨ type = SoilType.silt then
    if sptN < 2 then "Very Soft"
    else if sptN < 4 then "Soft"
    else if sptN < 8 then "Medium Stiff"
    else if sptN < 15 then "Stiff"
    else if sptN < 30 then "Very Stiff"
    else "Hard"
  else
    if sptN < 4 then "Very Loose"
    else if sptN < 10 then "Loose"
    else if sptN < 30 then "Medium Dense"
    else if sptN < 50 then "Dense"
    else "Very Dense"

structure ConsolidationParams where
  cc : ℚ
  cr : ℚ
  cv : ℚ
  cAlpha : ℚ
deriving DecidableEq, Repr

structure LayerParams where
  gamma : ℚ
  phi : ℚ
  c : ℚ
  E : ℚ
  shearStrengthAtBottom : ℚ
  consolidation : Option ConsolidationParams
deriving DecidableEq, Repr

structure AnalyzedLayer where
  depth : String
  description : String
  params : LayerParams
deriving DecidableEq, Repr

/-- `analyzeLayers` — per-layer derived parameters. -/
def analyzeLayers (M : RMath) (layers : List SoilLayer) : List AnalyzedLayer :=
  layers.map fun layer =>
    let lab := layer.labData
    let gamma := pick lab.useManual lab.unitWeight (estimateGamma layer.sptN layer.type)
    let phi := pick lab.useManual lab.frictionAngle (estimatePhi layer.sptN layer.type)
    let c := pick lab.useManual lab.cohesion (estimateCohesion layer.sptN layer.type)
    let E := pick lab.useManual lab.elasticModulus (estimateE layer.sptN layer.type)
    let shearStrengthAtBottom := c + gamma * layer.depthTo * M.tan (phi * M.pi / 180)
    let description :=
      layer.type.str ++ " layer, SPT N=" ++ toString layer.sptN ++ ", "
        ++ getDensityDescription layer.sptN layer.type
    let consolidation :=
      if layer.type = SoilType.clay ∨ layer.type = SoilType.silt then
        some
          { cc := jsOr lab.cc (estimateCc layer.sptN)
            cr := jsOr lab.cr
              (if jsTruthy lab.cc then lab.cc.getD 0 / 5 else estimateCc layer.sptN / 5)
            cv := jsOr lab.cv 0.5
            cAlpha := jsOr lab.cAlpha 0.005 }
      else none
    { depth := toString layer.depthFrom ++ "m - " ++ toString layer.depthTo ++ "m"
      description := description
      params :=
        { gamma := gamma, phi := phi, c := c, E := E
          shearStrengthAtBottom := round1 shearStrengthAtBottom
          consolidation := consolidation } }

-- ============ Orchestrator ============

structure CalculationOutput where
  layers : List AnalyzedLayer
  bearingCapacity : BearingCapacityResult
  settlement : SettlementResult
  slopeStability : Option SlopeStabilityResult
  foundationDesign : FoundationDesignResult
  femAnalysis : FEMResult
  graphs : Graphs
deriving DecidableEq, Repr

/-- `runFullAnalysis` — sequences the modules and assembles the unified
output.  The source throws a `TypeError` (indexing an empty array) if and
only if the layer list is empty; that is the sole abnormal exit, modelled
as `none`.  NO validation of layer contiguity/overlap or of foundation
geometry is performed anywhere in the source. -/
def runFullAnalysis (M : RMath) (layers : List SoilLayer)
    (foundation : FoundationData) : Option CalculationOutput :=
  if layers.isEmpty then none
  else
    let analyzedLayers := analyzeLayers M layers
    let bearingCapacity := calculateBearingCapacity M layers foundation
    let settlement := calculateSettlement M layers foundation
    let foundationDesign := calculateFoundationDesign M foundation bearingCapacity.q_allow
    let slopeStability := calculateSlopeStability M layers foundation
    let femAnalysis := calculateFEMAnalysis M layers foundation
    let graphs := generateGraphs M layers foundation bearingCapacity.q_ult settlement.total
    some
      { layers := analyzedLayers
        bearingCapacity := bearingCapacity
        settlement := settlement
        slopeStability := slopeStability
        foundationDesign := foundationDesign
        femAnalysis := femAnalysis
        graphs := graphs }

inductive RiskLevel where
  | low | medium | high
deriving DecidableEq, Repr

structure Recommendations where
  solutions : List String
  riskLevel : RiskLevel
deriving DecidableEq, Repr

structure FallbackReport where
  doctorReport : String
  recommendations : Recommendations
  designNotes : String
deriving DecidableEq, Repr

/-- Two-decimal formatting mirroring JS `Number.prototype.toFixed(2)`. -/
def toFixed2 (x : ℚ) : String :=
  let n := jsRound (x * 100)
  let sign := if n < 0 then "-" else ""
  let m := n.natAbs
  let frac := m % 100
  let fracStr := if frac < 10 then "0" ++ toString frac else toString frac
  sign ++ toString (m / 100) ++ "." ++ fracStr

/-- `generateFallbackReport` (analysisService) — deterministic templated
report.  The wall-clock date that the source interpolates is passed in as
`dateStr`. -/
def generateFallbackReport (data : CalculationOutput) (lang : Language)
    (dateStr : String) : FallbackReport :=
  let isAr := lang = Language.ar
  let solutions :=
    if data.foundationDesign.punchingShearCheck = PunchingCheck.notSafe
        ∨ data.bearingCapacity.factorOfSafety < 3 then
      if isAr then ["زيادة عمق التأسيس", "استخدام فرشة إحلال (Gravel Bedding)", "زيادة أبعاد الأساس"]
      else ["Increase foundation depth", "Use gravel bedding", "Increase footing dimensions"]
    else
      if isAr then ["التأسيس آمن، لا توجد توصيات خاصة.", "متابعة الهبوط أثناء التنفيذ."]
      else ["Foundation is safe, no special measures.", "Monitor settlement during construction."]
  let riskLevel :=
    if data.bearingCapacity.factorOfSafety < 1.5 then RiskLevel.high
    else if data.bearingCapacity.factorOfSafety < 2.5 then RiskLevel.medium
    else RiskLevel.low
  let fosStr := toFixed2 data.bearingCapacity.factorOfSafety
  let totalStr := toFixed2 data.settlement.total
  let doctorReport :=
    if isAr then
      "## تقرير التحليل الجيوتقني\n**التاريخ:** " ++ dateStr ++ "\n**الحالة:** "
        ++ (if riskLevel = RiskLevel.high then "تحذير: مخاطر عالية" else "مستقر")
        ++ "\n\nبناءً على البيانات المدخلة وطبقات التربة، تم حساب قدرة التحمل والهبوط المتوقع. \nتشير النتائج إلى أن عامل الأمان هو **"
        ++ fosStr ++ "**، وهو "
        ++ (if data.bearingCapacity.factorOfSafety ≥ 3 then "مقبول هندسياً" else "يتطلب مراجعة")
        ++ ".\n\n**الهبوط المتوقع:** " ++ totalStr ++ " مم.\n"
    else
      "## Geotechnical Analysis Report\n**Date:** " ++ dateStr ++ "\n**Status:** "
        ++ (if riskLevel = RiskLevel.high then "High Risk" else "Stable")
        ++ "\n\nBased on input soil layers, bearing capacity and settlement have been calculated.\nThe Factor of Safety is **"
        ++ fosStr ++ "**, which is "
        ++ (if data.bearingCapacity.factorOfSafety ≥ 3 then "acceptable" else "requires review")
        ++ ".\n\n**Total Settlement:** " ++ totalStr ++ " mm.\n"
  let designNotes :=
    if isAr then
      "تم حساب التسليح بناءً على العزم الأقصى. يوصى باستخدام " ++ data.foundationDesign.barSuggestion ++ "."
    else
      "Reinforcement calculated based on max moment. Suggested: " ++ data.foundationDesign.barSuggestion ++ "."
  { doctorReport := doctorReport
    recommendations := { solutions := solutions, riskLevel := riskLevel }
    designNotes := designNotes }

structure AnalysisResult where
  timestamp : ℤ
  layers : List AnalyzedLayer
  bearingCapacity : BearingCapacityResult
  settlement : SettlementResult
  slopeStability : Option SlopeStabilityResult
  foundationDesign : FoundationDesignResult
  femAnalysis : FEMResult
  recommendations : Recommendations
  graphs : Graphs
  doctorReport : String
  isAiGenerating : Bool
deriving DecidableEq, Repr

/-- `analyzeSoilProfile` (analysisService) — the deterministic entry point.
`calibrationData` is accepted and, as in the source, never read.  The impure
clock reads (`Date.now()`, `new Date().toLocaleDateString()`) are passed in
as `now`/`dateStr`.  `none` models the `TypeError` thrown on an empty layer
list. -/
def analyzeSoilProfile (M : RMath) (layers : List SoilLayer)
    (foundation : FoundationData) (calibrationData : List CalibrationRecord)
    (lang : Language) (now : ℤ) (dateStr : String) : Option AnalysisResult :=
  let _ := calibrationData
  match runFullAnalysis M layers foundation with
  | none => none
  | some calcResult =>
    let fallback := generateFallbackReport calcResult lang dateStr
    some
      { timestamp := now
        layers := calcResult.layers
        bearingCapacity := calcResult.bearingCapacity
        settlement := calcResult.settlement
        slopeStability := calcResult.slopeStability
        foundationDesign := { calcResult.foundationDesign with notes := fallback.designNotes }
        femAnalysis := calcResult.femAnalysis
        recommendations :=
          { solutions := fallback.recommendations.solutions
            riskLevel := fallback.recommendations.riskLevel }
        graphs := calcResult.graphs
        doctorReport := fallback.doctorReport
        isAiGenerating := false }

-- ============ Concrete instantiation and fixtures ============

/-- A concrete, computable instantiation of the abstract `Math` primitives,
used to exercise the engine on concrete inputs.  It satisfies the analytic
hypotheses the theorems below state (`exp 0 = 1`, monotone `sqrt`). -/
def sampleMath : RMath :=
  { exp := fun x => 1 + x
    tan := fun x => x
    sin := fun x => x / 2
    cos := fun _ => 1
    atan := fun x => x
    sqrt := fun x => x
    log10 := fun _ => 1
    pi := 3.14 }

/-- A two-layer sand-over-clay profile (the spec's concrete scenario). -/
def sampleLayers : List SoilLayer :=
  [ { depthFrom := 0, depthTo := 15, type := .sand, sptN := 20
      labData := { useManual := false } }
  , { depthFrom := 15, depthTo := 22, type := .clay, sptN := 8
      labData := { useManual := false, cc := some 0.18, cv := some 0.4 } } ]

/-- A raft foundation matching the spec's concrete scenario. -/
def sampleFoundation : FoundationData :=
  { width := 10, length := 10, depth := 2, load := 16000, type := .raft
    groundwaterDepth := 2, concreteGrade := 25, steelGrade := 420, targetFos := 3 }

-- ============ Rounding lemmas ============

theorem jsRound_le (y : ℚ) : (jsRound y : ℚ) ≤ y + 1/2 := Int.floor_le _

theorem lt_jsRound (y : ℚ) : y - 1/2 < (jsRound y : ℚ) := by
  have h := Int.sub_one_lt_floor (y + 1/2)
  unfold jsRound
  linarith

theorem abs_jsRound_sub (y : ℚ) : |(jsRound y : ℚ) - y| ≤ 1/2 := by
  have h1 := jsRound_le y
  have h2 := lt_jsRound y
  rw [abs_le]
  constructor <;> linarith

theorem round2_err (x : ℚ) : |round2 x - x| ≤ 1/200 := by
  have h := abs_jsRound_sub (x * 100)
  rw [abs_le] at h ⊢
  unfold round2
  exact ⟨by linarith [h.1], by linarith [h.2]⟩

theorem round2_mono {a b : ℚ} (h : a ≤ b) : round2 a ≤ round2 b := by
  unfold round2 jsRound
  have h1 : (⌊a * 100 + 1/2⌋ : ℤ) ≤ ⌊b * 100 + 1/2⌋ := Int.floor_le_floor (by linarith)
  have h2 : ((⌊a * 100 + 1/2⌋ : ℤ) : ℚ) ≤ ((⌊b * 100 + 1/2⌋ : ℤ) : ℚ) := by
    exact_mod_cast h1
  linarith

theorem round2_nonneg {x : ℚ} (h : 0 ≤ x) : 0 ≤ round2 x := by
  unfold round2 jsRound
  have h1 : (0 : ℤ) ≤ ⌊x * 100 + 1/2⌋ := Int.floor_nonneg.mpr (by linarith)
  have h2 : (0 : ℚ) ≤ ((⌊x * 100 + 1/2⌋ : ℤ) : ℚ) := by exact_mod_cast h1
  linarith

theorem jsRound_eq_of (y : ℚ) (z : ℤ) (h1 : (z : ℚ) ≤ y + 1/2) (h2 : y + 1/2 < z + 1) :
    jsRound y = z := by
  unfold jsRound
  exact Int.floor_eq_iff.mpr ⟨h1, h2⟩

theorem round2_514 : round2 5.14 = 5.14 := by
  unfold round2
  rw [jsRound_eq_of (5.14 * 100) 514 (by norm_num) (by norm_num)]
  norm_num

theorem round2_one : round2 1 = 1 := by
  unfold round2
  rw [jsRound_eq_of (1 * 100) 100 (by norm_num) (by norm_num)]
  norm_num

theorem round2_zero : round2 0 = 0 := by
  unfold round2
  rw [jsRound_eq_of (0 * 100) 0 (by norm_num) (by norm_num)]
  norm_num

-- ============ Claim C7 ============

/-- C7: whenever the friction angle resolved at the foundation layer is
exactly 0 — in particular for a clay layer without manual data, for every
blow-count — the reported bearing-capacity factors are exactly
Nc = 5.14, Nq = 1.0, Nγ = 0. -/
theorem phi_zero_bearing_factors :
    (∀ n : ℚ, estimatePhi n SoilType.clay = 0) ∧
    (∀ (M : RMath) (layers : List SoilLayer) (f : FoundationData),
      resolvedPhi layers f = 0 →
      (calculateBearingCapacity M layers f).factors =
        { Nc := 5.14, Nq := 1.0, Ngamma := 0 }) ∧
    (∀ (M : RMath) (layers : List SoilLayer) (f : FoundationData),
      (foundationLayerOf layers f).type = SoilType.clay →
      (foundationLayerOf layers f).labData.useManual = false →
      (calculateBearingCapacity M layers f).factors =
        { Nc := 5.14, Nq := 1.0, Ngamma := 0 }) := by
  have key : ∀ (M : RMath) (layers : List SoilLayer) (f : FoundationData),
      resolvedPhi layers f = 0 →
      (calculateBearingCapacity M layers f).factors =
        { Nc := 5.14, Nq := 1.0, Ngamma := 0 } := by
    intro M layers f h
    show ({ Nc := round2 (bearingCapacityFactors M (resolvedPhi layers f)).Nc
            Nq := round2 (bearingCapacityFactors M (resolvedPhi layers f)).Nq
            Ngamma := round2 (bearingCapacityFactors M (resolvedPhi layers f)).Ngamma } :
          BCFactors) = { Nc := 5.14, Nq := 1.0, Ngamma := 0 }
    rw [h]
    have hb : bearingCapacityFactors M 0 = { Nc := 5.14, Nq := 1.0, Ngamma := 0 } := by
      unfold bearingCapacityFactors
      simp
    rw [hb]
    simp [round2_514, round2_zero, show (1.0 : ℚ) = 1 by norm_num, round2_one]
  refine ⟨fun n => rfl, key, ?_⟩
  intro M layers f htype hman
  apply key
  simp only [resolvedPhi, pick, hman, htype]
  simp [estimatePhi]

/-- C7 witness: a clay foundation layer with no manual data yields the
fixed factors. -/
theorem phi_zero_bearing_factors_witness :
    (calculateBearingCapacity sampleMath
      [{ depthFrom := 0, depthTo := 5, type := SoilType.clay, sptN := 7
         labData := { useManual := false } }]
      sampleFoundation).factors = { Nc := 5.14, Nq := 1.0, Ngamma := 0 } := by
  apply phi_zero_bearing_factors.2.2
  · show (foundationLayerOf _ _).type = SoilType.clay
    unfold foundationLayerOf findLayerAt sampleFoundation
    norm_num [List.find?]
  · show (foundationLayerOf _ _).labData.useManual = false
    unfold foundationLayerOf findLayerAt sampleFoundation
    norm_num [List.find?]

-- ============ Claim C3 ============

/-- C3: the reported allowable capacity equals the reported ultimate
capacity divided by the target safety factor up to the two-decimal
rounding of each (within 1/100), and changing only the target safety
factor never changes the reported `q_ult`. -/
theorem q_allow_eq_q_ult_div_fos (M : RMath) (layers : List SoilLayer)
    (f : FoundationData) (h : 1 ≤ f.targetFos) :
    |(calculateBearingCapacity M layers f).q_allow -
        (calculateBearingCapacity M layers f).q_ult / f.targetFos| ≤ 1/100 ∧
    ∀ t : ℚ, (calculateBearingCapacity M layers { f with targetFos := t }).q_ult =
      (calculateBearingCapacity M layers f).q_ult := by
  constructor
  · have hne : f.targetFos ≠ 0 := by linarith
    have hfos : (0 : ℚ) < f.targetFos := by linarith
    have e1 : (calculateBearingCapacity M layers f).q_allow =
        round2 (qUltRaw M layers f / f.targetFos) := by
      show round2 (qUltRaw M layers f / jsOrQ f.targetFos 3.0) = _
      rw [jsOrQ, if_neg hne]
    have e2 : (calculateBearingCapacity M layers f).q_ult = round2 (qUltRaw M layers f) := rfl
    rw [e1, e2]
    set u := qUltRaw M layers f with hu
    have h1 : |round2 (u / f.targetFos) - u / f.targetFos| ≤ 1/200 := round2_err _
    have h2 : |round2 u - u| ≤ 1/200 := round2_err _
    have h3 : |round2 u / f.targetFos - u / f.targetFos| ≤ 1/200 := by
      rw [div_sub_div_same, abs_div, abs_of_pos hfos]
      have hself : |round2 u - u| / f.targetFos ≤ |round2 u - u| :=
        div_le_self (abs_nonneg _) h
      linarith
    calc |round2 (u / f.targetFos) - round2 u / f.targetFos|
        ≤ |round2 (u / f.targetFos) - u / f.targetFos| +
            |u / f.targetFos - round2 u / f.targetFos| := abs_sub_le _ _ _
      _ ≤ 1/200 + 1/200 := by
          gcongr
          rw [abs_sub_comm]
          exact h3
      _ = 1/100 := by norm_num
  · intro t
    rfl

/-- C3 witness at the sample raft scenario. -/
theorem q_allow_eq_q_ult_div_fos_witness :
    |(calculateBearingCapacity sampleMath sampleLayers sampleFoundation).q_allow -
        (calculateBearingCapacity sampleMath sampleLayers sampleFoundation).q_ult /
          sampleFoundation.targetFos| ≤ 1/100 :=
  (q_allow_eq_q_ult_div_fos sampleMath sampleLayers sampleFoundation
    (by norm_num [sampleFoundation])).1

-- ============ Claim C4 ============

/-- C4: the settlement status is derived from the unrounded total
settlement (elastic + primary + secondary): Safe exactly below 25 mm,
Warning exactly on [25, 50), Failure exactly at or above 50 mm. -/
theorem settlement_status_thresholds (M : RMath) (layers : List SoilLayer)
    (f : FoundationData) :
    ((calculateSettlement M layers f).status = SettlementStatus.safe ↔
      settlementTotalRaw M layers f < 25) ∧
    ((calculateSettlement M layers f).status = SettlementStatus.warning ↔
      25 ≤ settlementTotalRaw M layers f ∧ settlementTotalRaw M layers f < 50) ∧
    ((calculateSettlement M layers f).status = SettlementStatus.failure ↔
      50 ≤ settlementTotalRaw M layers f) := by
  have hst : (calculateSettlement M layers f).status =
      (if settlementTotalRaw M layers f < 25 then SettlementStatus.safe
       else if settlementTotalRaw M layers f < 50 then SettlementStatus.warning
       else SettlementStatus.failure) := rfl
  rw [hst]
  split_ifs with h1 h2
  · refine ⟨⟨fun _ => h1, fun _ => rfl⟩,
      ⟨(fun hc => by cases hc), (fun hc => by linarith [hc.1])⟩,
      ⟨(fun hc => by cases hc), (fun hc => by linarith)⟩⟩
  · refine ⟨⟨(fun hc => by cases hc), (fun hc => by linarith)⟩,
      ⟨(fun _ => ⟨by linarith, h2⟩), (fun _ => rfl)⟩,
      ⟨(fun hc => by cases hc), (fun hc => by linarith)⟩⟩
  · refine ⟨⟨(fun hc => by cases hc), (fun hc => by linarith)⟩,
      ⟨(fun hc => by cases hc), (fun hc => by linarith [hc.2])⟩,
      ⟨(fun _ => by linarith), (fun _ => rfl)⟩⟩

-- ============ Claim C8 ============

/-- C8: the calibration records passed to `analyzeSoilProfile` do not
influence any field of the result: two invocations differing only in the
calibration list return identical outputs. -/
theorem calibration_independent (M : RMath) (layers : List SoilLayer)
    (f : FoundationData) (cal1 cal2 : List CalibrationRecord) (lang : Language)
    (now : ℤ) (dateStr : String) :
    analyzeSoilProfile M layers f cal1 lang now dateStr =
      analyzeSoilProfile M layers f cal2 lang now dateStr := rfl

-- ============ Claim C9 ============

/-- C9: layer resolution is total on nonempty profiles: when no layer
interval contains the queried depth, `getLayerAtDepth` falls back to the
last layer, and the bearing-capacity/stress-field lookup
(`foundationLayerOf`) falls back to the first layer. -/
theorem layer_lookup_total :
    (∀ (layers : List SoilLayer) (d : ℚ), layers ≠ [] → findLayerAt layers d = none →
      some (getLayerAtDepth layers d) = layers.getLast?) ∧
    (∀ (layers : List SoilLayer) (f : FoundationData), layers ≠ [] →
      findLayerAt layers f.depth = none →
      some (foundationLayerOf layers f) = layers.head?) := by
  constructor
  · intro layers d hne hf
    unfold getLayerAtDepth
    rw [hf]
    obtain ⟨l, hl⟩ := Option.isSome_iff_exists.mp (List.getLast?_isSome.mpr hne)
    rw [hl]
    rfl
  · intro layers f hne hf
    unfold foundationLayerOf
    rw [hf]
    cases layers with
    | nil => exact absurd rfl hne
    | cons a as => rfl

/-- C9 witness: a depth below the whole sample profile resolves to the
last layer. -/
theorem layer_lookup_total_witness :
    some (getLayerAtDepth sampleLayers 30) = sampleLayers.getLast? :=
  layer_lookup_total.1 sampleLayers 30 (by simp [sampleLayers])
    (by norm_num [sampleLayers, findLayerAt, List.find?])

-- ============ Claim C10 ============

theorem elasticTerm_nonneg (layers : List SoilLayer) (f : FoundationData)
    (B Df : ℚ) (i : ℕ) (hB : 0 < B) : 0 ≤ elasticTerm layers f B Df i := by
  unfold elasticTerm
  dsimp only
  split_ifs with h1 h2 h3 h4 h5 <;>
    first
      | exact le_refl 0
      | · apply mul_nonneg
          · exact div_nonneg (le_max_left 0 _) (by linarith)
          · linarith

/-- C10: the elastic settlement component is zero when the net applied
pressure (applied minus overburden) is non-positive, and is never negative
for a positive foundation width (the `C1` depth correction is clamped at
zero before use). -/
theorem elastic_settlement_invariants (layers : List SoilLayer) (f : FoundationData)
    (B Df qApplied : ℚ) :
    (qApplied - getWeightedGamma layers Df * Df ≤ 0 →
      calculateElasticSettlement layers f B Df qApplied = 0) ∧
    (0 < B → 0 ≤ calculateElasticSettlement layers f B Df qApplied) := by
  constructor
  · intro h
    unfold calculateElasticSettlement
    dsimp only
    rw [if_pos h]
  · intro hB
    unfold calculateElasticSettlement
    dsimp only
    split_ifs with h
    · exact le_refl 0
    · have hd : 0 < qApplied - getWeightedGamma layers Df * Df := not_le.mp h
      have hS : 0 ≤ ((List.range 10).map (elasticTerm layers f B Df)).sum := by
        apply List.sum_nonneg
        intro x hx
        simp only [List.mem_map] at hx
        obtain ⟨i, _, rfl⟩ := hx
        exact elasticTerm_nonneg layers f B Df i hB
      have hm : (0:ℚ) ≤ max 0 (1 - 0.5 *
          (getWeightedGamma layers Df * Df / (qApplied - getWeightedGamma layers Df * Df))) :=
        le_max_left 0 _
      have := mul_nonneg (mul_nonneg (mul_nonneg
        (mul_nonneg hm (by norm_num : (0:ℚ) ≤ 1.0)) (le_of_lt hd)) hS)
        (by norm_num : (0:ℚ) ≤ 1000)
      exact this

/-- C10 witness: positive net pressure, positive width. -/
theorem elastic_settlement_invariants_witness :
    0 ≤ calculateElasticSettlement sampleLayers sampleFoundation 10 2 160 :=
  (elastic_settlement_invariants sampleLayers sampleFoundation 10 2 160).2 (by norm_num)

-- ============ Claim C6 ============

/-- C6: every node of the generated stress mesh carries a non-negative
stress, and along the vertical centerline (offset 0) the stress function is
monotonically non-increasing with depth. -/
theorem stress_field_properties :
    (∀ (M : RMath) (layers : List SoilLayer) (f : FoundationData),
      ∀ n ∈ (calculateFEMAnalysis M layers f).stressMesh, 0 ≤ n.stress) ∧
    (∀ (M : RMath) (q B L z1 z2 : ℚ), M.exp 0 = 1 → 0 < z1 → z1 ≤ z2 → 0 ≤ q →
      0 < B → 0 < L →
      boussinesqRectangular M q B L 0 z2 ≤ boussinesqRectangular M q B L 0 z1) := by
  constructor
  · intro M layers f n hn
    have hmesh : (calculateFEMAnalysis M layers f).stressMesh =
        (List.range 8).flatMap (fun iz => (List.range 12).map fun ix =>
          stressMeshNode M (f.load / planArea M f (resolvedB f) (resolvedLPlain f))
            (resolvedB f) (resolvedLPlain f) iz ix) := rfl
    rw [hmesh] at hn
    simp only [List.mem_flatMap, List.mem_map, List.mem_range] at hn
    obtain ⟨iz, _, ix, _, rfl⟩ := hn
    exact round2_nonneg (le_max_left 0 _)
  · intro M q B L z1 z2 hexp h1 h12 hq hB hL
    have hz2 : 0 < z2 := lt_of_lt_of_le h1 h12
    unfold boussinesqRectangular
    rw [if_neg (not_le.mpr h1), if_neg (not_le.mpr hz2)]
    dsimp only
    have hdecay : ∀ z : ℚ, M.exp (-(0 / (B / 2 + z * 0.5)) ^ 2) = 1 := by
      intro z
      rw [zero_div]
      norm_num [hexp]
    rw [hdecay z1, hdecay z2, mul_one, mul_one]
    have hD1 : 0 < (B + z1) * (L + z1) := mul_pos (by linarith) (by linarith)
    have hD2 : 0 < (B + z2) * (L + z2) := mul_pos (by linarith) (by linarith)
    rw [div_le_div_iff₀ hD2 hD1]
    apply mul_le_mul_of_nonneg_left ?_ (by positivity)
    nlinarith [mul_nonneg (sub_nonneg.mpr h12) (by linarith : (0:ℚ) ≤ z2 + z1)]

/-- C6 witness: deeper centerline point carries no more stress. -/
theorem stress_field_properties_witness :
    boussinesqRectangular sampleMath 100 2 3 0 2 ≤ boussinesqRectangular sampleMath 100 2 3 0 1 :=
  stress_field_properties.2 sampleMath 100 2 3 1 2 (by norm_num [sampleMath])
    (by norm_num) (by norm_num) (by norm_num) (by norm_num) (by norm_num)

-- ============ Claim C5 ============

theorem punchIter_ge (M : RMath) (fc col load q : ℚ) :
    ∀ (n : ℕ) (d : ℚ), d ≤ punchIter M fc col load q n d := by
  intro n
  induction n with
  | zero => intro d; rw [punchIter]
  | succ k ih =>
    intro d
    rw [punchIter]
    split_ifs with h
    · exact le_refl d
    · have := ih (d + 0.05)
      linarith

theorem punchIter_anti (M : RMath) (fc1 fc2 col load q : ℚ)
    (hc : ∀ d, 0 ≤ d → punchCond M fc1 col load q d → punchCond M fc2 col load q d) :
    ∀ (n : ℕ) (d : ℚ), 0 ≤ d →
      punchIter M fc2 col load q n d ≤ punchIter M fc1 col load q n d := by
  intro n
  induction n with
  | zero => intro d _; rw [punchIter, punchIter]
  | succ k ih =>
    intro d hd
    rw [punchIter, punchIter]
    by_cases h1 : punchCond M fc1 col load q d
    · rw [if_pos h1, if_pos (hc d hd h1)]
    · rw [if_neg h1]
      by_cases h2 : punchCond M fc2 col load q d
      · rw [if_pos h2]
        have := punchIter_ge M fc1 col load q k (d + 0.05)
        linarith
      · rw [if_neg h2]
        exact ih (d + 0.05) (by linarith)

theorem punchCond_mono (M : RMath) {fc1 fc2 col load q : ℚ}
    (hs : ∀ a b : ℚ, a ≤ b → M.sqrt a ≤ M.sqrt b) (hfc : fc1 ≤ fc2) (hcol : 0 ≤ col) :
    ∀ d, 0 ≤ d → punchCond M fc1 col load q d → punchCond M fc2 col load q d := by
  intro d hd h
  unfold punchCond at h ⊢
  have hsq := hs fc1 fc2 hfc
  nlinarith [mul_nonneg (mul_nonneg (add_nonneg hcol hd) hd) (sub_nonneg.mpr hsq)]

/-- C5: raising only the concrete strength grade fc′ never increases the
minimum thickness solved by the bounded punching-shear iteration. -/
theorem thickness_antitone_in_fc (M : RMath) (f : FoundationData) (g2 qa1 qa2 : ℚ)
    (hcol : 0 ≤ columnSizeOf f (resolvedB f) (resolvedLPlain f))
    (hfc : f.concreteGrade ≤ g2)
    (hs : ∀ a b : ℚ, a ≤ b → M.sqrt a ≤ M.sqrt b) :
    (calculateFoundationDesign M { f with concreteGrade := g2 } qa2).minThickness ≤
      (calculateFoundationDesign M f qa1).minThickness := by
  have e1 : (calculateFoundationDesign M f qa1).minThickness =
      round2 (effectiveDepth M f + 0.1) := rfl
  have e2 : (calculateFoundationDesign M { f with concreteGrade := g2 } qa2).minThickness =
      round2 (effectiveDepth M { f with concreteGrade := g2 } + 0.1) := rfl
  rw [e1, e2]
  apply round2_mono
  have e3 : effectiveDepth M { f with concreteGrade := g2 } =
      punchIter M g2 (columnSizeOf f (resolvedB f) (resolvedLPlain f)) f.load
        (f.load / planArea M f (resolvedB f) (resolvedLPlain f)) 20 0.3 := rfl
  have e4 : effectiveDepth M f =
      punchIter M f.concreteGrade (columnSizeOf f (resolvedB f) (resolvedLPlain f)) f.load
        (f.load / planArea M f (resolvedB f) (resolvedLPlain f)) 20 0.3 := rfl
  rw [e3, e4]
  have key := punchIter_anti M f.concreteGrade g2
    (columnSizeOf f (resolvedB f) (resolvedLPlain f)) f.load
    (f.load / planArea M f (resolvedB f) (resolvedLPlain f))
    (punchCond_mono M hs hfc hcol) 20 0.3 (by norm_num)
  linarith

/-- C5 witness: raising fc′ from 25 to 30 MPa on the sample raft. -/
theorem thickness_antitone_in_fc_witness :
    (calculateFoundationDesign sampleMath { sampleFoundation with concreteGrade := 30 }
        100).minThickness ≤
      (calculateFoundationDesign sampleMath sampleFoundation 100).minThickness :=
  thickness_antitone_in_fc sampleMath sampleFoundation 30 100 100
    (by
      have e : columnSizeOf sampleFoundation (resolvedB sampleFoundation)
          (resolvedLPlain sampleFoundation) = min (10:ℚ) 10 * 0.3 := rfl
      rw [e]
      norm_num [min_self])
    (by norm_num [sampleFoundation])
    (fun a b h => h)

-- ============ Claim C1 ============

/-- Modelled from the spec (claim C1 wording): the profile depth is the
deepest layer bottom. -/
def specProfileDepth (layers : List SoilLayer) : ℚ :=
  (layers.map (·.depthTo)).foldr max 0

/-- Modelled from the spec (claim C1 wording): a malformed layer list has a
zero-length layer or consecutive layers whose depth intervals are
non-contiguous or overlapping. -/
def specLayerListMalformed : List SoilLayer → Bool
  | [] => false
  | [l] => decide (l.depthTo = l.depthFrom)
  | a :: b :: rest =>
    decide (a.depthTo = a.depthFrom) || decide (a.depthTo ≠ b.depthFrom) ||
      specLayerListMalformed (b :: rest)

/-- Modelled from the spec (claim C1 wording): invalid foundation geometry —
non-positive width/length/diameter, or foundation depth exceeding the
profile depth. -/
def specInvalidGeometry (f : FoundationData) (layers : List SoilLayer) : Bool :=
  decide (f.width ≤ 0) || decide (f.length ≤ 0) ||
    (match f.diameter with
     | some d => decide (d ≤ 0)
     | none => false) ||
    decide (specProfileDepth layers < f.depth)

/-- A foundation whose embedment depth (30 m) exceeds the sample profile
depth (22 m) — invalid geometry in the claim's sense. -/
def c1Foundation : FoundationData :=
  { width := 2, length := 2, depth := 30, load := 100, type := .isolated
    groundwaterDepth := 50, concreteGrade := 25, steelGrade := 420, targetFos := 3 }

/-- C1 counterexample: on a geometrically invalid input (foundation depth
beyond the profile) the engine does NOT abort — it returns a
`CalculationOutput`. -/
theorem no_abort_on_invalid_input :
    specInvalidGeometry c1Foundation sampleLayers = true ∧
    (runFullAnalysis sampleMath sampleLayers c1Foundation).isSome = true := by
  constructor
  · norm_num [specInvalidGeometry, specProfileDepth, sampleLayers, c1Foundation]
  · rfl

/-- C1 (amended): the engine performs no input validation at all; for every
input with a nonempty layer list — malformed or geometrically invalid
included — the computation proceeds and a `CalculationOutput` is returned.
Only an empty layer list aborts (a `TypeError`, not a reported validation
error). -/
theorem engine_total_on_nonempty_profiles (M : RMath) (layers : List SoilLayer)
    (f : FoundationData) (h : layers ≠ []) :
    (runFullAnalysis M layers f).isSome = true := by
  cases layers with
  | nil => exact absurd rfl h
  | cons a as => rfl

/-- C1 amended-theorem witness at the invalid concrete input. -/
theorem engine_total_on_nonempty_profiles_witness :
    (runFullAnalysis sampleMath sampleLayers c1Foundation).isSome = true :=
  engine_total_on_nonempty_profiles sampleMath sampleLayers c1Foundation
    (by simp [sampleLayers])

-- ============ Claim C2 ============

/-- A layer whose flag requests measured data and whose measured unit
weight is present with value 0. -/
def c2Layer : SoilLayer :=
  { depthFrom := 0, depthTo := 5, type := .sand, sptN := 20
    labData := { useManual := true, unitWeight := some 0 } }

def c2Foundation : FoundationData :=
  { width := 2, length := 2, depth := 0, load := 100, type := .isolated
    groundwaterDepth := 10, concreteGrade := 25, steelGrade := 420, targetFos := 3 }

theorem getWeightedGamma_singleton (l : SoilLayer) (d : ℚ) (hfrom : l.depthFrom = 0)
    (hd : 0 < d) (hdle : d ≤ l.depthTo) :
    getWeightedGamma [l] d = jsOr l.labData.unitWeight (estimateGamma l.sptN l.type) := by
  have hmin : min l.depthTo d = d := min_eq_right hdle
  have hd0 : ¬ (d ≤ 0) := not_le.mpr hd
  have hdne : d ≠ 0 := ne_of_gt hd
  simp [getWeightedGamma, getWeightedGammaAux, hfrom, hmin, hd0, hd,
    mul_div_cancel_right₀, hdne]

/-- C2 counterexample: for a layer with the measured-data flag SET and the
measured unit weight PRESENT (value 0), `getWeightedGamma` invokes the
estimator (returning 18) instead of the measured value, while the
bearing-capacity resolver uses the measured 0 for the same layer — the
precedence rule is violated and is not uniform across modules. -/
theorem per_field_precedence_counterexample :
    c2Layer.labData.useManual = true ∧
    c2Layer.labData.unitWeight = some 0 ∧
    getWeightedGamma [c2Layer] 5 = estimateGamma c2Layer.sptN c2Layer.type ∧
    estimateGamma c2Layer.sptN c2Layer.type = 18 ∧
    resolvedGammaBC [c2Layer] c2Foundation = 0 := by
  refine ⟨rfl, rfl, ?_, ?_, ?_⟩
  · rw [getWeightedGamma_singleton c2Layer 5 rfl (by norm_num) (by norm_num [c2Layer])]
    simp [c2Layer, jsOr]
  · norm_num [estimateGamma, c2Layer]
  · norm_num [resolvedGammaBC, foundationLayerOf, findLayerAt, List.find?, pick,
      c2Layer, c2Foundation]

/-- C2 (amended): precedence is per field but NOT uniform across modules,
and the estimator can be invoked even when the flag is true and the field
is present.  The flag-checking resolvers (`analyzeLayers`, the
bearing-capacity module) use the measured value exactly when the flag is
true and the field present (a measured zero included) and the estimator
otherwise; `getWeightedGamma` ignores the flag entirely: it uses a measured
unit weight whenever present and nonzero, and treats a measured zero as
absent, invoking the estimator — so the same measured field resolves
differently in different modules. -/
theorem per_field_precedence_amended :
    (∀ (layers : List SoilLayer) (f : FoundationData) (v : ℚ),
      (foundationLayerOf layers f).labData.useManual = true →
      (foundationLayerOf layers f).labData.unitWeight = some v →
      resolvedGammaBC layers f = v) ∧
    (∀ (layers : List SoilLayer) (f : FoundationData),
      (foundationLayerOf layers f).labData.useManual = false →
      resolvedGammaBC layers f =
        estimateGamma (foundationLayerOf layers f).sptN (foundationLayerOf layers f).type) ∧
    (∀ (M : RMath) (layer : SoilLayer) (v : ℚ),
      layer.labData.useManual = true → layer.labData.unitWeight = some v →
      (analyzeLayers M [layer]).map (fun a => a.params.gamma) = [v]) ∧
    (∀ (l : SoilLayer) (v d : ℚ), l.depthFrom = 0 → 0 < d → d ≤ l.depthTo →
      l.labData.unitWeight = some v → v ≠ 0 →
      getWeightedGamma [l] d = v) ∧
    (∀ (l : SoilLayer) (d : ℚ), l.depthFrom = 0 → 0 < d → d ≤ l.depthTo →
      l.labData.unitWeight = some 0 →
      getWeightedGamma [l] d = estimateGamma l.sptN l.type) := by
  refine ⟨?_, ?_, ?_, ?_, ?_⟩
  · intro layers f v h1 h2
    simp [resolvedGammaBC, pick, h1, h2]
  · intro layers f h1
    simp [resolvedGammaBC, pick, h1]
  · intro M layer v h1 h2
    simp [analyzeLayers, pick, h1, h2]
  · intro l v d hfrom hd hdle hv hvne
    rw [getWeightedGamma_singleton l d hfrom hd hdle, hv]
    simp [jsOr, hvne]
  · intro l d hfrom hd hdle hv
    rw [getWeightedGamma_singleton l d hfrom hd hdle, hv]
    simp [jsOr]

/-- C2 amended-theorem witness: a present nonzero measured unit weight is
used by `getWeightedGamma` even with the flag off. -/
theorem per_field_precedence_amended_witness :
    getWeightedGamma
      [{ depthFrom := 0, depthTo := 5, type := .sand, sptN := 20
         labData := { useManual := false, unitWeight := some 20 } }] 3 = 20 :=
  per_field_precedence_amended.2.2.2.1 _ 20 3 rfl (by norm_num) (by norm_num) rfl
    (by norm_num)

end SmartGeo
